import Mathlib

-- Shallow embedding of the Distro-Analyzer scoring engine (src/score/engine.go
-- and the profile data model).  Go `int` is modelled as ℤ and Go `float64` as ℝ.

namespace DistroAnalyzer

-- ExperienceLevel from package profile.
inductive ExperienceLevel where
  | junior
  | mid
  | senior
deriving DecidableEq

-- FitCategory from package profile.
inductive FitCategory where
  | FitStrong
  | FitPotential
  | FitNone
deriving DecidableEq

-- Sentiment from package profile.
inductive Sentiment where
  | positive
  | neutral
  | negative
deriving DecidableEq

-- Trend from package score (Go constants TrendDown = -1, TrendStable = 0, TrendUp = 1;
-- the Go zero value is TrendStable).
inductive Trend where
  | TrendDown
  | TrendStable
  | TrendUp
deriving DecidableEq

-- Distro from package score.
structure Distro where
  ID : String
  Name : String
  Rolling : ℤ
  Easy : ℤ
  DIY : ℤ
  Performance : ℤ
  DevFocus : ℤ
  Popularity : ℤ
  Trend : Trend
deriving DecidableEq

-- Signals from package profile.
structure Signals where
  Topics : List String
  Sentiment : Sentiment
  ExperienceLevel : ExperienceLevel
  Keywords : List String
  TechStack : List String
deriving DecidableEq

-- UserDimensions from package score.
structure UserDimensions where
  RollingScore : ℤ
  DIYScore : ℤ
  PerformanceScore : ℤ
  DevScore : ℤ
deriving DecidableEq

-- clamp from package score.
def clamp (value min max : ℤ) : ℤ :=
  if value < min then min
  else if value > max then max
  else value

-- abs helper from package score.
def abs (x : ℤ) : ℤ := if x < 0 then -x else x

-- String containment: Go strings.Contains(s, sub) is true when sub occurs
-- contiguously inside s.  Modelled on the character list of the string.
def listStartsWith : List Char → List Char → Bool
  | _, [] => true
  | [], _ :: _ => false
  | a :: l, b :: p => a == b && listStartsWith l p

def listHasSub : List Char → List Char → Bool
  | [], sub => sub.isEmpty
  | a :: l, sub => listStartsWith (a :: l) sub || listHasSub l sub

def stringContains (s sub : String) : Bool := listHasSub s.toList sub.toList

-- Curated word lists from package score, in declaration order.
def bleedingTech : List String := ["rust", "mojo", "zig", "deno", "bun"]

def stableKeywords : List String := ["production", "enterprise", "stable", "lts"]

def diyKeywords : List String :=
  ["dotfiles", "rice", "customization", "tiling", "window manager",
   "kernel", "arch", "gentoo", "nixos", "low-level", "assembly",
   "hyprland", "sway", "i3", "awesome", "dwm", "qtile", "bspwm",
   "wayland", "x11", "compositor", "eww", "polybar", "waybar", "rofi", "wofi",
   "minimal", "minimalism", "void", "artix", "crux", "alpine", "kiss",
   "lfs", "linux from scratch", "custom kernel", "musl", "glibc hardening",
   "immutable", "atomic", "silverblue", "kinoite", "bazzite", "ublue",
   "home-manager", "flakes", "nix", "guix",
   "ricing", "unixporn", "gruvbox", "catppuccin", "tokyonight"]

def easyKeywords : List String := ["beginner", "simple", "easy", "user-friendly"]

def scriptingLangs : List String := ["bash", "lua", "python"]

def perfKeywords : List String :=
  ["gaming", "performance", "gpu", "vulkan", "shader", "godot", "unreal"]

def perfTech : List String :=
  ["c", "c++", "rust", "vulkan", "opengl", "gpu",
   "cuda", "rocm", "opencl", "metal",
   "directx", "dx12", "webgpu",
   "assembly", "asm", "x86", "arm", "riscv",
   "hpc", "mpi", "openmp", "simd", "avx", "avx512",
   "zig", "c++20", "c++23", "cpp",
   "ispc", "halide",
   "game dev", "godot", "unreal", "unity"]

def devTech : List String :=
  ["c", "c++", "go", "rust", "python", "ruby", "javascript", "typescript",
   "java", "kotlin", "swift", "php", "perl", "shell", "bash", "lua",
   "docker", "kubernetes", "terraform", "ansible", "vagrant", "chef", "puppet",
   "jenkins", "gitlab", "github actions", "circleci",
   "aws", "gcp", "azure", "cloud",
   "git", "make", "cmake", "gradle", "maven", "npm", "yarn", "pip"]

def devKeywords : List String :=
  ["devops", "backend", "infrastructure", "sre", "platform",
   "rails", "web", "api", "microservices", "containers", "orchestration",
   "automation", "ci/cd", "deployment", "ansible", "kubernetes", "k8s"]

def criticalKeywords : List String :=
  ["kernel", "ansible", "kubernetes", "k8s", "docker", "devops"]

-- calculateRollingPreference from package score.
def calculateRollingPreference (signals : Signals) : ℤ :=
  let score : ℤ := 5
  let score := signals.TechStack.foldl
    (fun score tech => bleedingTech.foldl
      (fun score bleeding => if tech = bleeding then score + 2 else score) score) score
  let score := if signals.ExperienceLevel = ExperienceLevel.senior then score + 1 else score
  let score := signals.Keywords.foldl
    (fun score kw => stableKeywords.foldl
      (fun score stable => if kw = stable then score - 2 else score) score) score
  clamp score 0 10

-- calculateDIYPreference from package score.
def calculateDIYPreference (signals : Signals) : ℤ :=
  let score : ℤ := 5
  let score := signals.Keywords.foldl
    (fun score kw =>
      let score := diyKeywords.foldl
        (fun score diy => if kw = diy then score + 3 else score) score
      easyKeywords.foldl
        (fun score easy => if kw = easy then score - 2 else score) score) score
  let scriptCount : ℤ := signals.TechStack.foldl
    (fun scriptCount tech => scriptingLangs.foldl
      (fun scriptCount script => if tech = script then scriptCount + 1 else scriptCount)
      scriptCount) 0
  let score := if scriptCount ≥ 2 then score + 2 else score
  clamp score 0 10

-- calculatePerformanceNeed from package score.
def calculatePerformanceNeed (signals : Signals) : ℤ :=
  let score : ℤ := 3
  let score := signals.Keywords.foldl
    (fun score kw => perfKeywords.foldl
      (fun score perf => if kw = perf then score + 2 else score) score) score
  let score := signals.TechStack.foldl
    (fun score tech => perfTech.foldl
      (fun score perf => if tech = perf then score + 1 else score) score) score
  clamp score 0 10

-- calculateDevFocus from package score.
def calculateDevFocus (signals : Signals) : ℤ :=
  let score : ℤ := 5
  let score := signals.Keywords.foldl
    (fun score kw =>
      let kwLower := kw.toLower
      criticalKeywords.foldl
        (fun score critical => if stringContains kwLower critical then score + 2 else score)
        score) score
  let score := signals.TechStack.foldl
    (fun score tech =>
      let techLower := tech.toLower
      devTech.foldl
        (fun score dev =>
          if techLower == dev || stringContains techLower dev then score + 1 else score)
        score) score
  let score := signals.Keywords.foldl
    (fun score kw =>
      let kwLower := kw.toLower
      devKeywords.foldl
        (fun score dev =>
          if kwLower == dev || stringContains kwLower dev then score + 1 else score)
        score) score
  clamp score 0 10

-- calculateDimensions from package score.
def calculateDimensions (signals : Signals) : UserDimensions :=
  { RollingScore := calculateRollingPreference signals
    DIYScore := calculateDIYPreference signals
    PerformanceScore := calculatePerformanceNeed signals
    DevScore := calculateDevFocus signals }

-- MatchResult from package score (matchScore is a Go float64, modelled as ℝ).
structure MatchResult where
  distro : Distro
  matchScore : ℝ

-- Result from package profile.
structure Result where
  Score : ℤ
  Category : FitCategory
  Explanation : String
  Confidence : ℝ

-- ScoreOutput from package score.
structure ScoreOutput where
  Result : Result
  BestDistroID : String
  BestDistroName : String

-- Go zero values: `var best MatchResult` starts with empty strings, zero integers,
-- Trend(0) = TrendStable and matchScore 0.
def defaultDistro : Distro :=
  { ID := "", Name := "", Rolling := 0, Easy := 0, DIY := 0, Performance := 0,
    DevFocus := 0, Popularity := 0, Trend := Trend.TrendStable }

noncomputable def defaultMatchResult : MatchResult :=
  { distro := defaultDistro, matchScore := 0 }

-- Euclidean distance between the user dimensions and a distro, from findBestMatch.
noncomputable def distanceOf (dims : UserDimensions) (distro : Distro) : ℝ :=
  Real.sqrt
    (((dims.RollingScore - distro.Rolling : ℤ) : ℝ) ^ 2 +
     ((dims.DIYScore - distro.DIY : ℤ) : ℝ) ^ 2 +
     ((dims.PerformanceScore - distro.Performance : ℤ) : ℝ) ^ 2 +
     ((dims.DevScore - distro.DevFocus : ℤ) : ℝ) ^ 2)

-- Normalised distance (maxDist = 20.0), clamped to [0,1] as in findBestMatch.
noncomputable def normDistOf (dims : UserDimensions) (distro : Distro) : ℝ :=
  let normDist := distanceOf dims distro / 20
  let normDist := if normDist < 0 then (0 : ℝ) else normDist
  if normDist > 1 then 1 else normDist

noncomputable def similarityOf (dims : UserDimensions) (distro : Distro) : ℝ :=
  1 - normDistOf dims distro

-- Popularity normalisation (maxPopularity = 3790.0), from findBestMatch.
noncomputable def popNormOf (distro : Distro) : ℝ :=
  if distro.Popularity > 0 then
    let popNorm := Real.log ((distro.Popularity : ℝ) + 1) / Real.log (3790 + 1)
    let popNorm := if popNorm < 0 then (0 : ℝ) else popNorm
    if popNorm > 1 then 1 else popNorm
  else 0

-- Trend multiplier from findBestMatch (switch with default 1.0).
noncomputable def trendMultiplierOf (distro : Distro) : ℝ :=
  match distro.Trend with
  | Trend.TrendUp => 1.08
  | Trend.TrendDown => 0.97
  | Trend.TrendStable => 1

-- The per-candidate composite of findBestMatch (alpha = 0.90, beta = 0.10).
noncomputable def candidateScore (dims : UserDimensions) (distro : Distro) : ℝ :=
  (0.90 * similarityOf dims distro + 0.10 * popNormOf distro) * trendMultiplierOf distro

-- The selection loop of findBestMatch: carries (best, bestScore), skips distros with
-- Popularity < 500 for senior profiles, and updates on strictly greater composite.
noncomputable def findBestLoop (dims : UserDimensions) (signals : Signals)
    (distros : List Distro) : MatchResult × ℝ :=
  distros.foldl
    (fun acc distro =>
      if signals.ExperienceLevel = ExperienceLevel.senior ∧ distro.Popularity < 500 then
        acc
      else
        let finalScore := candidateScore dims distro
        if finalScore > acc.2 then ({ distro := distro, matchScore := finalScore }, finalScore)
        else acc)
    (defaultMatchResult, 0)

-- findBestMatch from package score: the loop followed by the senior post-selection
-- penalties on the winner.
noncomputable def findBestMatch (dims : UserDimensions) (signals : Signals)
    (distros : List Distro) : MatchResult :=
  let best := (findBestLoop dims signals distros).1
  if signals.ExperienceLevel = ExperienceLevel.senior then
    let best :=
      if dims.DevScore ≥ 8 ∧ best.distro.DevFocus ≤ 7 then
        { best with matchScore := best.matchScore * 0.85 }
      else best
    if dims.DIYScore ≥ 8 ∧ best.distro.Easy ≥ 9 then
      { best with matchScore := best.matchScore * 0.90 }
    else best
  else best

-- Go int(math.Round(x)): round to nearest, ties away from zero.
noncomputable def roundToInt (x : ℝ) : ℤ :=
  if x < 0 then -⌊-x + 1 / 2⌋ else ⌊x + 1 / 2⌋

-- calculateFinalScore from package score.
noncomputable def calculateFinalScore (mr : MatchResult) (dims : UserDimensions)
    (signals : Signals) : ℤ :=
  let baseScore := roundToInt (mr.matchScore * 100)
  let adjustment : ℤ := 0
  let distro := mr.distro
  let adjustment :=
    if signals.ExperienceLevel = ExperienceLevel.junior then
      let adjustment := if distro.Easy ≥ 8 then adjustment + 5 else adjustment
      if distro.DIY ≥ 9 then adjustment - 10 else adjustment
    else if signals.ExperienceLevel = ExperienceLevel.senior then
      let adjustment := if distro.DevFocus ≥ 9 then adjustment + 5 else adjustment
      let adjustment := if distro.DIY ≥ 7 then adjustment + 3 else adjustment
      if distro.Easy ≥ 10 ∧ distro.DIY ≤ 2 then adjustment - 3 else adjustment
    else adjustment
  let adjustment := if dims.DevScore ≥ 8 ∧ distro.DevFocus ≤ 5 then adjustment - 5 else adjustment
  let adjustment :=
    if dims.PerformanceScore ≥ 8 ∧ distro.Performance ≤ 5 then adjustment - 5 else adjustment
  let perfectMatches : ℤ := 0
  let perfectMatches :=
    if abs (dims.RollingScore - distro.Rolling) ≤ 1 then perfectMatches + 1 else perfectMatches
  let perfectMatches :=
    if abs (dims.DIYScore - distro.DIY) ≤ 1 then perfectMatches + 1 else perfectMatches
  let perfectMatches :=
    if abs (dims.PerformanceScore - distro.Performance) ≤ 1 then perfectMatches + 1
    else perfectMatches
  let perfectMatches :=
    if abs (dims.DevScore - distro.DevFocus) ≤ 1 then perfectMatches + 1 else perfectMatches
  let adjustment :=
    if perfectMatches ≥ 3 then adjustment + 8
    else if perfectMatches = 2 then adjustment + 4
    else adjustment
  let adjustment := if distro.Popularity < 150 then adjustment - 3 else adjustment
  let adjustment :=
    if distro.Trend = Trend.TrendDown ∧ distro.Popularity < 300 then adjustment - 5
    else adjustment
  clamp (baseScore + adjustment) 0 100

-- determineCategory from package score.
def determineCategory (score : ℤ) : FitCategory :=
  if score ≥ 75 then FitCategory.FitStrong
  else if score ≥ 50 then FitCategory.FitPotential
  else FitCategory.FitNone

-- buildExplanation from package score.
def buildExplanation (mr : MatchResult) (dims : UserDimensions) (score : ℤ) : String :=
  let distro := mr.distro
  let explanation := "Basado en tu perfil, recomendamos " ++ distro.Name ++ ". "
  let explanation :=
    if dims.RollingScore ≥ 7 ∧ distro.Rolling ≥ 7 then
      explanation ++ "Prefieres tecnologías actuales y " ++ distro.Name ++ " es rolling release. "
    else explanation
  let explanation :=
    if dims.DIYScore ≥ 7 ∧ distro.DIY ≥ 7 then
      explanation ++ "Tu perfil indica que te gusta personalizar, " ++ distro.Name ++
        " ofrece control total. "
    else explanation
  let explanation :=
    if dims.PerformanceScore ≥ 7 ∧ distro.Performance ≥ 8 then
      explanation ++ "Necesitas alto rendimiento y " ++ distro.Name ++
        " está optimizada para ello. "
    else explanation
  let explanation :=
    if distro.Trend = Trend.TrendUp then explanation ++ "Además, está en crecimiento activo. "
    else explanation
  explanation

-- Score from package score (the Engine holds the distro list; modelled as a parameter).
noncomputable def Score (distros : List Distro) (signals : Signals) : ScoreOutput :=
  let dimensions := calculateDimensions signals
  let bestMatch := findBestMatch dimensions signals distros
  let finalScore := calculateFinalScore bestMatch dimensions signals
  let category := determineCategory finalScore
  let explanation := buildExplanation bestMatch dimensions finalScore
  { Result :=
      { Score := finalScore, Category := category, Explanation := explanation,
        Confidence := bestMatch.matchScore }
    BestDistroID := bestMatch.distro.ID
    BestDistroName := bestMatch.distro.Name }

-- Spec-side count of scripting-language occurrences in a tech stack, counted with
-- multiplicity (a term appearing twice counts twice).
def scriptOccurrences (techStack : List String) : ℕ :=
  (techStack.filter (fun t => decide (t ∈ scriptingLangs))).length

-- The keyword-only part of calculateDIYPreference (base 5 plus the keyword loop),
-- exactly as in the source before the scripting bonus is considered.
def diyKeywordScore (keywords : List String) : ℤ :=
  keywords.foldl
    (fun score kw =>
      let score := diyKeywords.foldl
        (fun score diy => if kw = diy then score + 3 else score) score
      easyKeywords.foldl
        (fun score easy => if kw = easy then score - 2 else score) score) 5

-- Invariant carried by the selection loop of findBestMatch.
def loopInv (r : MatchResult × ℝ) : Prop :=
  r.1.matchScore = r.2 ∧ 0 ≤ r.2 ∧ r.2 ≤ 1.08

-- Concrete inputs used to exercise the engine.
def emptyMidSignals : Signals :=
  { Topics := [], Sentiment := Sentiment.neutral, ExperienceLevel := ExperienceLevel.mid,
    Keywords := [], TechStack := [] }

def emptySeniorSignals : Signals :=
  { Topics := [], Sentiment := Sentiment.neutral, ExperienceLevel := ExperienceLevel.senior,
    Keywords := [], TechStack := [] }

-- A popular rising-trend distro sitting exactly on the baseline vector (5, 5, 3, 5).
def baselineRisingDistro : Distro :=
  { ID := "base-up", Name := "BaseUp", Rolling := 5, Easy := 5, DIY := 5, Performance := 3,
    DevFocus := 5, Popularity := 3790, Trend := Trend.TrendUp }

-- A distro 20 distance units away from the baseline vector with zero popularity.
def farZeroPopDistro : Distro :=
  { ID := "far", Name := "Far", Rolling := 25, Easy := 0, DIY := 5, Performance := 3,
    DevFocus := 5, Popularity := 0, Trend := Trend.TrendStable }

-- A niche distro whose popularity is below the senior eligibility threshold.
def obscureDistro : Distro :=
  { ID := "obscure", Name := "Obscure", Rolling := 5, Easy := 5, DIY := 5, Performance := 3,
    DevFocus := 5, Popularity := 100, Trend := Trend.TrendStable }

-- A popular, easy, low-dev-focus distro that triggers both senior penalties.
def easyGenericDistro : Distro :=
  { ID := "easy", Name := "Easy", Rolling := 5, Easy := 10, DIY := 9, Performance := 3,
    DevFocus := 7, Popularity := 3790, Trend := Trend.TrendStable }

-- User dimensions with high diy and high dev focus, as in the stacking scenario.
def seniorDiyDevDims : UserDimensions :=
  { RollingScore := 5, DIYScore := 9, PerformanceScore := 3, DevScore := 8 }

-- Helper lemmas about the accumulation loops: a fold whose body only shifts the
-- accumulator by a per-element amount is a sum over the list.

lemma foldl_add_shift {α : Type} (g : α → ℤ) :
    ∀ (l : List α) (s : ℤ), l.foldl (fun s x => s + g x) s = s + (l.map g).sum := by
  intro l
  induction l with
  | nil => intro s; simp
  | cons a t ih =>
      intro s
      rw [List.foldl_cons, ih, List.map_cons, List.sum_cons]
      ring

lemma foldl_eq_shift {α : Type} {f : ℤ → α → ℤ} (g : α → ℤ)
    (hb : ∀ s x, f s x = s + g x) :
    ∀ (l : List α) (s : ℤ), l.foldl f s = s + (l.map g).sum := by
  have hf : f = fun s x => s + g x := funext fun s => funext fun x => hb s x
  intro l s
  rw [hf]
  exact foldl_add_shift g l s

lemma foldl_ite_add {β : Type} (p : β → Prop) [DecidablePred p] (c : ℤ) :
    ∀ (l : List β) (s : ℤ),
      l.foldl (fun s b => if p b then s + c else s) s =
        s + (l.map (fun b => if p b then c else 0)).sum := by
  refine foldl_eq_shift _ (fun s b => ?_)
  by_cases h : p b <;> simp [h]

lemma sum_map_ite_one {α : Type} (p : α → Prop) [DecidablePred p] :
    ∀ l : List α,
      (l.map (fun a => if p a then (1 : ℤ) else 0)).sum =
        ((l.filter (fun a => decide (p a))).length : ℤ) := by
  intro l
  induction l with
  | nil => simp
  | cons a t ih =>
      by_cases h : p a <;>
        simp [List.filter_cons, h, ih] <;> push_cast <;> ring

lemma foldl_ite_sub {β : Type} (p : β → Prop) [DecidablePred p] (c : ℤ) :
    ∀ (l : List β) (s : ℤ),
      l.foldl (fun s b => if p b then s - c else s) s =
        s + (l.map (fun b => if p b then -c else 0)).sum := by
  refine foldl_eq_shift _ (fun s b => ?_)
  by_cases h : p b <;> simp [h, sub_eq_add_neg]

lemma foldl_shift_perm {α : Type} {f : ℤ → α → ℤ} (g : α → ℤ)
    (hb : ∀ s x, f s x = s + g x) {l l' : List α} (hp : List.Perm l l') (s : ℤ) :
    l.foldl f s = l'.foldl f s := by
  rw [foldl_eq_shift g hb l s, foldl_eq_shift g hb l' s, List.Perm.sum_eq (hp.map g)]

lemma clamp_bounds (v lo hi : ℤ) (h : lo ≤ hi) : lo ≤ clamp v lo hi ∧ clamp v lo hi ≤ hi := by
  unfold clamp
  split_ifs <;> omega

-- Permutation invariance of the four dimension calculators: every loop body only
-- shifts the accumulator by a per-element amount, so accumulation is commutative.

lemma calculateRollingPreference_perm (sig : Signals) (ks ts : List String)
    (hk : List.Perm sig.Keywords ks) (ht : List.Perm sig.TechStack ts) :
    calculateRollingPreference { sig with Keywords := ks, TechStack := ts } =
      calculateRollingPreference sig := by
  unfold calculateRollingPreference
  dsimp only
  have hT : List.foldl
      (fun (score : ℤ) (tech : String) => bleedingTech.foldl
        (fun score bleeding => if tech = bleeding then score + 2 else score) score)
      (5 : ℤ) ts =
      List.foldl
      (fun (score : ℤ) (tech : String) => bleedingTech.foldl
        (fun score bleeding => if tech = bleeding then score + 2 else score) score)
      (5 : ℤ) sig.TechStack :=
    foldl_shift_perm
      (fun tech => (bleedingTech.map (fun b => if tech = b then (2 : ℤ) else 0)).sum)
      (fun s tech => foldl_ite_add (fun b => tech = b) 2 bleedingTech s) ht.symm 5
  rw [hT]
  have hK : ∀ init : ℤ, List.foldl
      (fun (score : ℤ) (kw : String) => stableKeywords.foldl
        (fun score stable => if kw = stable then score - 2 else score) score) init ks =
      List.foldl
      (fun (score : ℤ) (kw : String) => stableKeywords.foldl
        (fun score stable => if kw = stable then score - 2 else score) score) init
      sig.Keywords :=
    fun init => foldl_shift_perm
      (fun kw => (stableKeywords.map (fun st => if kw = st then (-2 : ℤ) else 0)).sum)
      (fun s kw => foldl_ite_sub (fun st => kw = st) 2 stableKeywords s) hk.symm init
  rw [hK]

lemma calculateDIYPreference_perm (sig : Signals) (ks ts : List String)
    (hk : List.Perm sig.Keywords ks) (ht : List.Perm sig.TechStack ts) :
    calculateDIYPreference { sig with Keywords := ks, TechStack := ts } =
      calculateDIYPreference sig := by
  unfold calculateDIYPreference
  dsimp only
  have hK : ∀ init : ℤ, List.foldl
      (fun (score : ℤ) (kw : String) =>
        easyKeywords.foldl
          (fun score easy => if kw = easy then score - 2 else score)
          (diyKeywords.foldl
            (fun score diy => if kw = diy then score + 3 else score) score)) init ks =
      List.foldl
      (fun (score : ℤ) (kw : String) =>
        easyKeywords.foldl
          (fun score easy => if kw = easy then score - 2 else score)
          (diyKeywords.foldl
            (fun score diy => if kw = diy then score + 3 else score) score)) init
      sig.Keywords :=
    fun init => foldl_shift_perm
      (fun kw => (diyKeywords.map (fun d => if kw = d then (3 : ℤ) else 0)).sum +
        (easyKeywords.map (fun e => if kw = e then (-2 : ℤ) else 0)).sum)
      (fun s kw => by
        rw [foldl_ite_add (fun d => kw = d) 3 diyKeywords s,
          foldl_ite_sub (fun e => kw = e) 2 easyKeywords
            (s + (diyKeywords.map (fun d => if kw = d then (3 : ℤ) else 0)).sum)]
        ring) hk.symm init
  rw [hK]
  have hC : List.foldl
      (fun (scriptCount : ℤ) (tech : String) => scriptingLangs.foldl
        (fun scriptCount script => if tech = script then scriptCount + 1 else scriptCount)
        scriptCount) (0 : ℤ) ts =
      List.foldl
      (fun (scriptCount : ℤ) (tech : String) => scriptingLangs.foldl
        (fun scriptCount script => if tech = script then scriptCount + 1 else scriptCount)
        scriptCount) (0 : ℤ) sig.TechStack :=
    foldl_shift_perm
      (fun tech => (scriptingLangs.map (fun sc => if tech = sc then (1 : ℤ) else 0)).sum)
      (fun s tech => foldl_ite_add (fun sc => tech = sc) 1 scriptingLangs s) ht.symm 0
  rw [hC]

lemma calculatePerformanceNeed_perm (sig : Signals) (ks ts : List String)
    (hk : List.Perm sig.Keywords ks) (ht : List.Perm sig.TechStack ts) :
    calculatePerformanceNeed { sig with Keywords := ks, TechStack := ts } =
      calculatePerformanceNeed sig := by
  unfold calculatePerformanceNeed
  dsimp only
  have hK : List.foldl
      (fun (score : ℤ) (kw : String) => perfKeywords.foldl
        (fun score perf => if kw = perf then score + 2 else score) score) (3 : ℤ) ks =
      List.foldl
      (fun (score : ℤ) (kw : String) => perfKeywords.foldl
        (fun score perf => if kw = perf then score + 2 else score) score) (3 : ℤ)
      sig.Keywords :=
    foldl_shift_perm
      (fun kw => (perfKeywords.map (fun p => if kw = p then (2 : ℤ) else 0)).sum)
      (fun s kw => foldl_ite_add (fun p => kw = p) 2 perfKeywords s) hk.symm 3
  rw [hK]
  have hT : ∀ init : ℤ, List.foldl
      (fun (score : ℤ) (tech : String) => perfTech.foldl
        (fun score perf => if tech = perf then score + 1 else score) score) init ts =
      List.foldl
      (fun (score : ℤ) (tech : String) => perfTech.foldl
        (fun score perf => if tech = perf then score + 1 else score) score) init
      sig.TechStack :=
    fun init => foldl_shift_perm
      (fun tech => (perfTech.map (fun p => if tech = p then (1 : ℤ) else 0)).sum)
      (fun s tech => foldl_ite_add (fun p => tech = p) 1 perfTech s) ht.symm init
  rw [hT]

lemma calculateDevFocus_perm (sig : Signals) (ks ts : List String)
    (hk : List.Perm sig.Keywords ks) (ht : List.Perm sig.TechStack ts) :
    calculateDevFocus { sig with Keywords := ks, TechStack := ts } =
      calculateDevFocus sig := by
  unfold calculateDevFocus
  dsimp only
  have h1 : List.foldl
      (fun (score : ℤ) (kw : String) => criticalKeywords.foldl
        (fun score critical =>
          if stringContains kw.toLower critical then score + 2 else score) score)
      (5 : ℤ) ks =
      List.foldl
      (fun (score : ℤ) (kw : String) => criticalKeywords.foldl
        (fun score critical =>
          if stringContains kw.toLower critical then score + 2 else score) score)
      (5 : ℤ) sig.Keywords :=
    foldl_shift_perm
      (fun kw => (criticalKeywords.map
        (fun c => if stringContains kw.toLower c then (2 : ℤ) else 0)).sum)
      (fun s kw => foldl_ite_add
        (fun c => stringContains kw.toLower c = true) 2 criticalKeywords s) hk.symm 5
  rw [h1]
  have h2 : ∀ init : ℤ, List.foldl
      (fun (score : ℤ) (tech : String) => devTech.foldl
        (fun score dev =>
          if tech.toLower == dev || stringContains tech.toLower dev then score + 1
          else score) score) init ts =
      List.foldl
      (fun (score : ℤ) (tech : String) => devTech.foldl
        (fun score dev =>
          if tech.toLower == dev || stringContains tech.toLower dev then score + 1
          else score) score) init sig.TechStack :=
    fun init => foldl_shift_perm
      (fun tech => (devTech.map
        (fun dev => if (tech.toLower == dev || stringContains tech.toLower dev) = true
          then (1 : ℤ) else 0)).sum)
      (fun s tech => foldl_ite_add
        (fun dev => (tech.toLower == dev || stringContains tech.toLower dev) = true)
        1 devTech s) ht.symm init
  rw [h2]
  have h3 : ∀ init : ℤ, List.foldl
      (fun (score : ℤ) (kw : String) => devKeywords.foldl
        (fun score dev =>
          if kw.toLower == dev || stringContains kw.toLower dev then score + 1
          else score) score) init ks =
      List.foldl
      (fun (score : ℤ) (kw : String) => devKeywords.foldl
        (fun score dev =>
          if kw.toLower == dev || stringContains kw.toLower dev then score + 1
          else score) score) init sig.Keywords :=
    fun init => foldl_shift_perm
      (fun kw => (devKeywords.map
        (fun dev => if (kw.toLower == dev || stringContains kw.toLower dev) = true
          then (1 : ℤ) else 0)).sum)
      (fun s kw => foldl_ite_add
        (fun dev => (kw.toLower == dev || stringContains kw.toLower dev) = true)
        1 devKeywords s) hk.symm init
  rw [h3]

lemma scriptCount_eq_occurrences :
    ∀ ts : List String,
      ts.foldl
        (fun scriptCount tech => scriptingLangs.foldl
          (fun scriptCount script => if tech = script then scriptCount + 1 else scriptCount)
          scriptCount) 0 = (scriptOccurrences ts : ℤ) := by
  intro ts
  have hb : ∀ (s : ℤ) (tech : String),
      scriptingLangs.foldl
        (fun scriptCount script => if tech = script then scriptCount + 1 else scriptCount) s =
        s + (if tech ∈ scriptingLangs then (1 : ℤ) else 0) := by
    intro s tech
    rw [foldl_ite_add (fun script => tech = script) 1 scriptingLangs s]
    by_cases h1 : tech = "bash" <;> by_cases h2 : tech = "lua" <;>
      by_cases h3 : tech = "python" <;>
      simp_all [scriptingLangs]
  rw [foldl_eq_shift _ hb ts 0, sum_map_ite_one (fun t => t ∈ scriptingLangs) ts]
  simp [scriptOccurrences]

lemma calculateDIYPreference_eq (sig : Signals) :
    calculateDIYPreference sig =
      clamp (diyKeywordScore sig.Keywords +
        (if 2 ≤ scriptOccurrences sig.TechStack then 2 else 0)) 0 10 := by
  unfold calculateDIYPreference diyKeywordScore
  rw [scriptCount_eq_occurrences sig.TechStack]
  by_cases h : 2 ≤ scriptOccurrences sig.TechStack
  · have h2 : ((scriptOccurrences sig.TechStack : ℤ)) ≥ 2 := by exact_mod_cast h
    simp [h, h2]
  · have h2 : ¬((scriptOccurrences sig.TechStack : ℤ) ≥ 2) := by
      intro hc
      exact h (by exact_mod_cast hc)
    simp [h, h2]

-- Bounds for the matcher's per-candidate quantities.

lemma normDistOf_bounds (dims : UserDimensions) (d : Distro) :
    0 ≤ normDistOf dims d ∧ normDistOf dims d ≤ 1 := by
  simp only [normDistOf]
  split_ifs <;> constructor <;> linarith

lemma similarityOf_bounds (dims : UserDimensions) (d : Distro) :
    0 ≤ similarityOf dims d ∧ similarityOf dims d ≤ 1 := by
  obtain ⟨h0, h1⟩ := normDistOf_bounds dims d
  unfold similarityOf
  constructor <;> linarith

lemma popNormOf_bounds (d : Distro) : 0 ≤ popNormOf d ∧ popNormOf d ≤ 1 := by
  simp only [popNormOf]
  split_ifs <;> constructor <;> linarith

lemma trendMultiplierOf_bounds (d : Distro) :
    0 < trendMultiplierOf d ∧ trendMultiplierOf d ≤ 1.08 := by
  cases hd : d.Trend <;> simp only [trendMultiplierOf, hd] <;> norm_num

lemma candidateScore_bounds (dims : UserDimensions) (d : Distro) :
    0 ≤ candidateScore dims d ∧ candidateScore dims d ≤ 1.08 := by
  obtain ⟨hs0, hs1⟩ := similarityOf_bounds dims d
  obtain ⟨hp0, hp1⟩ := popNormOf_bounds d
  obtain ⟨ht0, ht1⟩ := trendMultiplierOf_bounds d
  unfold candidateScore
  constructor
  · exact mul_nonneg (by linarith) ht0.le
  · calc (0.90 * similarityOf dims d + 0.10 * popNormOf d) * trendMultiplierOf d ≤
        1 * 1.08 := mul_le_mul (by linarith) ht1 ht0.le (by norm_num)
      _ = 1.08 := by norm_num

lemma foldl_step_inv (dims : UserDimensions) (signals : Signals) :
    ∀ (l : List Distro) (acc : MatchResult × ℝ), loopInv acc →
      loopInv (l.foldl
        (fun acc distro =>
          if signals.ExperienceLevel = ExperienceLevel.senior ∧ distro.Popularity < 500 then
            acc
          else
            let finalScore := candidateScore dims distro
            if finalScore > acc.2 then
              ({ distro := distro, matchScore := finalScore }, finalScore)
            else acc) acc) := by
  intro l
  induction l with
  | nil => intro acc h; exact h
  | cons d t ih =>
      intro acc h
      rw [List.foldl_cons]
      apply ih
      by_cases hc : signals.ExperienceLevel = ExperienceLevel.senior ∧ d.Popularity < 500
      · rw [if_pos hc]; exact h
      · rw [if_neg hc]
        dsimp only
        by_cases hgt : candidateScore dims d > acc.2
        · rw [if_pos hgt]
          exact ⟨rfl, (candidateScore_bounds dims d).1, (candidateScore_bounds dims d).2⟩
        · rw [if_neg hgt]; exact h

lemma findBestLoop_inv (dims : UserDimensions) (signals : Signals) (distros : List Distro) :
    loopInv (findBestLoop dims signals distros) := by
  unfold findBestLoop
  exact foldl_step_inv dims signals distros (defaultMatchResult, 0)
    ⟨rfl, le_refl 0, by norm_num⟩

lemma findBestMatch_bounds (dims : UserDimensions) (signals : Signals)
    (distros : List Distro) :
    0 ≤ (findBestMatch dims signals distros).matchScore ∧
      (findBestMatch dims signals distros).matchScore ≤ 1.08 := by
  obtain ⟨he, h0, h1⟩ := findBestLoop_inv dims signals distros
  have hb0 : 0 ≤ (findBestLoop dims signals distros).1.matchScore := by rw [he]; exact h0
  have hb1 : (findBestLoop dims signals distros).1.matchScore ≤ 1.08 := by rw [he]; exact h1
  constructor <;> simp only [findBestMatch] <;> split_ifs <;>
    first | linarith | (dsimp only; linarith)

lemma foldl_step_zero (dims : UserDimensions) (signals : Signals) :
    ∀ (l : List Distro),
      (∀ d ∈ l,
        ¬(signals.ExperienceLevel = ExperienceLevel.senior ∧ d.Popularity < 500) →
          candidateScore dims d = 0) →
      l.foldl
        (fun acc distro =>
          if signals.ExperienceLevel = ExperienceLevel.senior ∧ distro.Popularity < 500 then
            acc
          else
            let finalScore := candidateScore dims distro
            if finalScore > acc.2 then
              ({ distro := distro, matchScore := finalScore }, finalScore)
            else acc) (defaultMatchResult, 0) = (defaultMatchResult, 0) := by
  intro l
  induction l with
  | nil => intro _; rfl
  | cons d t ih =>
      intro hz
      rw [List.foldl_cons]
      by_cases hc : signals.ExperienceLevel = ExperienceLevel.senior ∧ d.Popularity < 500
      · rw [if_pos hc]
        exact ih fun x hx h => hz x (List.mem_cons_of_mem _ hx) h
      · rw [if_neg hc]
        have hz0 := hz d (List.mem_cons_self d t) hc
        dsimp only
        rw [hz0, if_neg (lt_irrefl (0 : ℝ))]
        exact ih fun x hx h => hz x (List.mem_cons_of_mem _ hx) h

lemma findBestLoop_zero (dims : UserDimensions) (signals : Signals) (distros : List Distro)
    (hz : ∀ d ∈ distros,
      ¬(signals.ExperienceLevel = ExperienceLevel.senior ∧ d.Popularity < 500) →
        candidateScore dims d = 0) :
    findBestLoop dims signals distros = (defaultMatchResult, 0) := by
  unfold findBestLoop
  exact foldl_step_zero dims signals distros hz

lemma roundToInt_le_108 {x : ℝ} (h0 : 0 ≤ x) (h1 : x ≤ 1.08) :
    roundToInt (x * 100) ≤ 108 := by
  unfold roundToInt
  rw [if_neg (by linarith : ¬x * 100 < 0)]
  have hx : x * 100 + 1 / 2 ≤ (108.5 : ℝ) := by linarith
  calc ⌊x * 100 + 1 / 2⌋ ≤ ⌊(108.5 : ℝ)⌋ := Int.floor_le_floor hx
    _ = 108 := by norm_num [Int.floor_eq_iff]

-- Concrete evaluations of the matcher on the sample catalog entries.

lemma baselineRising_candidateScore :
    candidateScore ⟨5, 5, 3, 5⟩ baselineRisingDistro = 1.08 := by
  have hd : distanceOf ⟨5, 5, 3, 5⟩ baselineRisingDistro = 0 := by
    simp only [distanceOf, baselineRisingDistro]
    norm_num [Real.sqrt_zero]
  have hn : normDistOf ⟨5, 5, 3, 5⟩ baselineRisingDistro = 0 := by
    simp only [normDistOf, hd]
    norm_num
  have hs : similarityOf ⟨5, 5, 3, 5⟩ baselineRisingDistro = 1 := by
    simp [similarityOf, hn]
  have hlog : Real.log (3791 : ℝ) ≠ 0 := ne_of_gt (Real.log_pos (by norm_num))
  have hp : popNormOf baselineRisingDistro = 1 := by
    simp only [popNormOf, baselineRisingDistro]
    rw [if_pos (by norm_num)]
    push_cast
    norm_num
  have ht : trendMultiplierOf baselineRisingDistro = 1.08 := rfl
  rw [candidateScore, hs, hp, ht]
  norm_num

lemma baselineRising_loop :
    findBestLoop ⟨5, 5, 3, 5⟩ emptyMidSignals [baselineRisingDistro] =
      ({ distro := baselineRisingDistro, matchScore := 1.08 }, 1.08) := by
  unfold findBestLoop
  rw [List.foldl_cons, List.foldl_nil]
  rw [if_neg (by decide :
    ¬(emptyMidSignals.ExperienceLevel = ExperienceLevel.senior ∧
      baselineRisingDistro.Popularity < 500))]
  dsimp only
  rw [baselineRising_candidateScore]
  rw [if_pos (by norm_num : (1.08 : ℝ) > 0)]

lemma farZeroPop_candidateScore :
    candidateScore ⟨5, 5, 3, 5⟩ farZeroPopDistro = 0 := by
  have hd : distanceOf ⟨5, 5, 3, 5⟩ farZeroPopDistro = 20 := by
    simp only [distanceOf, farZeroPopDistro]
    norm_num
    rw [show (400 : ℝ) = 20 ^ 2 by norm_num, Real.sqrt_sq (by norm_num : (0:ℝ) ≤ 20)]
  have hn : normDistOf ⟨5, 5, 3, 5⟩ farZeroPopDistro = 1 := by
    simp only [normDistOf, hd]
    norm_num
  have hs : similarityOf ⟨5, 5, 3, 5⟩ farZeroPopDistro = 0 := by
    simp [similarityOf, hn]
  have hp : popNormOf farZeroPopDistro = 0 := by
    simp only [popNormOf, farZeroPopDistro]
    norm_num
  have ht : trendMultiplierOf farZeroPopDistro = 1 := rfl
  rw [candidateScore, hs, hp, ht]
  norm_num

lemma easyGeneric_candidateScore :
    candidateScore seniorDiyDevDims easyGenericDistro = 0.955 := by
  have hd : distanceOf seniorDiyDevDims easyGenericDistro = 1 := by
    simp only [distanceOf, easyGenericDistro, seniorDiyDevDims]
    norm_num [Real.sqrt_one]
  have hn : normDistOf seniorDiyDevDims easyGenericDistro = 1 / 20 := by
    simp only [normDistOf, hd]
    norm_num
  have hs : similarityOf seniorDiyDevDims easyGenericDistro = 19 / 20 := by
    simp only [similarityOf, hn]
    norm_num
  have hlog : Real.log (3791 : ℝ) ≠ 0 := ne_of_gt (Real.log_pos (by norm_num))
  have hp : popNormOf easyGenericDistro = 1 := by
    simp only [popNormOf, easyGenericDistro]
    rw [if_pos (by norm_num)]
    push_cast
    norm_num
  have ht : trendMultiplierOf easyGenericDistro = 1 := rfl
  rw [candidateScore, hs, hp, ht]
  norm_num

lemma easyGeneric_loop :
    findBestLoop seniorDiyDevDims emptySeniorSignals [easyGenericDistro] =
      ({ distro := easyGenericDistro, matchScore := 0.955 }, 0.955) := by
  unfold findBestLoop
  rw [List.foldl_cons, List.foldl_nil]
  rw [if_neg (by decide :
    ¬(emptySeniorSignals.ExperienceLevel = ExperienceLevel.senior ∧
      easyGenericDistro.Popularity < 500))]
  dsimp only
  rw [easyGeneric_candidateScore]
  rw [if_pos (by norm_num : (0.955 : ℝ) > 0)]

-- Claim theorems ----------------------------------------------------------------

/-- C3 counterexample: the claim says a tech-stack containing the same single
scripting term twice and no other scripting term does not receive the +2 bonus;
the code counts occurrences with multiplicity, so the bonus is applied:
the diy axis for tech-stack ["python", "python"] is 7, while a single "python"
leaves it at the neutral 5. -/
theorem diy_bonus_duplicate_scripting_term :
    calculateDIYPreference
        ⟨[], Sentiment.neutral, ExperienceLevel.mid, [], ["python", "python"]⟩ = 7 ∧
      calculateDIYPreference
        ⟨[], Sentiment.neutral, ExperienceLevel.mid, [], ["python"]⟩ = 5 := by
  constructor <;> decide

/-- C3 (amended): the +2 flat bonus on the diy axis is added exactly when the
tech-stack contains at least two occurrences of scripting-language terms from
bash/lua/python, counted with multiplicity (two copies of the same term count);
otherwise the axis is the clamped keyword score alone. -/
theorem diy_bonus_iff_two_scripting_occurrences (sig : Signals) :
    (2 ≤ scriptOccurrences sig.TechStack →
        calculateDIYPreference sig = clamp (diyKeywordScore sig.Keywords + 2) 0 10) ∧
      (scriptOccurrences sig.TechStack < 2 →
        calculateDIYPreference sig = clamp (diyKeywordScore sig.Keywords) 0 10) := by
  constructor
  · intro h
    rw [calculateDIYPreference_eq sig, if_pos h]
  · intro h
    rw [calculateDIYPreference_eq sig, if_neg (by omega)]
    simp

/-- C3 witness: the duplicate-python tech stack has two scripting occurrences and
receives the flat bonus. -/
theorem diy_bonus_iff_two_scripting_occurrences_witness :
    2 ≤ scriptOccurrences ["python", "python"] ∧
      calculateDIYPreference
          ⟨[], Sentiment.neutral, ExperienceLevel.mid, [], ["python", "python"]⟩ =
        clamp (diyKeywordScore [] + 2) 0 10 :=
  ⟨by decide,
    (diy_bonus_iff_two_scripting_occurrences
      ⟨[], Sentiment.neutral, ExperienceLevel.mid, [], ["python", "python"]⟩).1 (by decide)⟩

/-- C1: the spec requires the empty eligible-candidate set (senior profile, every
catalog item below popularity 500) to be handled explicitly and not produce a
zero-valued match; the code instead returns the Go zero value: empty best distro
id and name and confidence 0, even though the catalog is non-empty. -/
theorem senior_filter_all_excluded_yields_zero_match :
    (Score [obscureDistro] emptySeniorSignals).BestDistroID = "" ∧
      (Score [obscureDistro] emptySeniorSignals).BestDistroName = "" ∧
      (Score [obscureDistro] emptySeniorSignals).Result.Confidence = 0 := by
  have hdims : calculateDimensions emptySeniorSignals = ⟨6, 5, 3, 5⟩ := by decide
  have hloop : findBestLoop ⟨6, 5, 3, 5⟩ emptySeniorSignals [obscureDistro] =
      (defaultMatchResult, 0) := by
    unfold findBestLoop
    rw [List.foldl_cons, List.foldl_nil]
    rw [if_pos (by decide :
      emptySeniorSignals.ExperienceLevel = ExperienceLevel.senior ∧
        obscureDistro.Popularity < 500)]
  have hbm : findBestMatch ⟨6, 5, 3, 5⟩ emptySeniorSignals [obscureDistro] =
      defaultMatchResult := by
    unfold findBestMatch
    rw [hloop]
    dsimp only
    rw [if_pos (by decide : emptySeniorSignals.ExperienceLevel = ExperienceLevel.senior)]
    rw [if_neg (by decide :
      ¬((⟨6, 5, 3, 5⟩ : UserDimensions).DevScore ≥ 8 ∧
        defaultMatchResult.distro.DevFocus ≤ 7))]
    rw [if_neg (by decide :
      ¬((⟨6, 5, 3, 5⟩ : UserDimensions).DIYScore ≥ 8 ∧
        defaultMatchResult.distro.Easy ≥ 9))]
  simp only [Score, hdims, hbm]
  exact ⟨rfl, rfl, rfl⟩

/-- C2 counterexample: the claim says the returned match quality (stored as the
confidence) always lies in [0, 1]; for the empty mid profile against a catalog
holding one maximally popular rising-trend item sitting exactly on the baseline
vector, the composite is (0.90·1 + 0.10·1)·1.08 = 1.08 > 1. -/
theorem confidence_exceeds_one_on_rising_trend :
    1 < (Score [baselineRisingDistro] emptyMidSignals).Result.Confidence := by
  have hdims : calculateDimensions emptyMidSignals = ⟨5, 5, 3, 5⟩ := by decide
  have hbm : findBestMatch ⟨5, 5, 3, 5⟩ emptyMidSignals [baselineRisingDistro] =
      { distro := baselineRisingDistro, matchScore := 1.08 } := by
    unfold findBestMatch
    rw [baselineRising_loop]
    rw [if_neg (by decide :
      ¬emptyMidSignals.ExperienceLevel = ExperienceLevel.senior)]
  simp only [Score, hdims, hbm]
  norm_num

/-- C2 (amended): the match quality returned by the matcher and stored as the
confidence lies in [0, 1.08] (the trend multiplier can push the composite up to
8% above 1); it is not confined to [0, 1]. -/
theorem confidence_within_zero_and_108_percent (distros : List Distro) (signals : Signals) :
    0 ≤ (Score distros signals).Result.Confidence ∧
      (Score distros signals).Result.Confidence ≤ 1.08 := by
  have h := findBestMatch_bounds (calculateDimensions signals) signals distros
  simp only [Score]
  exact h

/-- C4: every axis of the extracted user vector lies in [0, 10], every
per-candidate similarity and popNorm lies in [0, 1], and the final integer score
of the normalizer lies in [0, 100]. -/
theorem range_invariants (signals sig2 : Signals) (dims : UserDimensions) (d : Distro)
    (mr : MatchResult) :
    (0 ≤ (calculateDimensions signals).RollingScore ∧
        (calculateDimensions signals).RollingScore ≤ 10) ∧
      (0 ≤ (calculateDimensions signals).DIYScore ∧
        (calculateDimensions signals).DIYScore ≤ 10) ∧
      (0 ≤ (calculateDimensions signals).PerformanceScore ∧
        (calculateDimensions signals).PerformanceScore ≤ 10) ∧
      (0 ≤ (calculateDimensions signals).DevScore ∧
        (calculateDimensions signals).DevScore ≤ 10) ∧
      (0 ≤ similarityOf dims d ∧ similarityOf dims d ≤ 1) ∧
      (0 ≤ popNormOf d ∧ popNormOf d ≤ 1) ∧
      (0 ≤ calculateFinalScore mr dims sig2 ∧ calculateFinalScore mr dims sig2 ≤ 100) := by
  refine ⟨?_, ?_, ?_, ?_, similarityOf_bounds dims d, popNormOf_bounds d, ?_⟩
  · exact clamp_bounds _ 0 10 (by norm_num)
  · exact clamp_bounds _ 0 10 (by norm_num)
  · exact clamp_bounds _ 0 10 (by norm_num)
  · exact clamp_bounds _ 0 10 (by norm_num)
  · exact clamp_bounds _ 0 100 (by norm_num)

/-- C6: the dimension extractor is order-insensitive: permuting the Keywords
list and the TechStack list of a Signals value leaves all four axes of the
extracted user vector unchanged. -/
theorem calculateDimensions_perm_invariant (sig : Signals) (ks ts : List String)
    (hk : List.Perm sig.Keywords ks) (ht : List.Perm sig.TechStack ts) :
    calculateDimensions { sig with Keywords := ks, TechStack := ts } =
      calculateDimensions sig := by
  unfold calculateDimensions
  rw [calculateRollingPreference_perm sig ks ts hk ht,
    calculateDIYPreference_perm sig ks ts hk ht,
    calculatePerformanceNeed_perm sig ks ts hk ht,
    calculateDevFocus_perm sig ks ts hk ht]

/-- C6 witness: swapping a two-element keyword list and a two-element tech-stack
list leaves the extracted user vector unchanged. -/
theorem calculateDimensions_perm_invariant_witness :
    calculateDimensions
        ⟨[], Sentiment.neutral, ExperienceLevel.mid, ["stable", "gaming"],
          ["python", "rust"]⟩ =
      calculateDimensions
        ⟨[], Sentiment.neutral, ExperienceLevel.mid, ["gaming", "stable"],
          ["rust", "python"]⟩ :=
  calculateDimensions_perm_invariant
    ⟨[], Sentiment.neutral, ExperienceLevel.mid, ["gaming", "stable"], ["rust", "python"]⟩
    ["stable", "gaming"] ["python", "rust"]
    (List.Perm.swap "stable" "gaming" [])
    (List.Perm.swap "python" "rust" [])

/-- C7: for senior profiles the two post-selection penalties apply independently
and multiplicatively to the selection loop's winner: both conditions give
composite × 0.85 × 0.90, each alone gives its own factor, and non-senior
profiles leave the winner untouched. -/
theorem senior_penalties_multiplicative (dims : UserDimensions) (signals : Signals)
    (distros : List Distro) :
    (signals.ExperienceLevel = ExperienceLevel.senior →
      (dims.DevScore ≥ 8 ∧ (findBestLoop dims signals distros).1.distro.DevFocus ≤ 7) →
      (dims.DIYScore ≥ 8 ∧ (findBestLoop dims signals distros).1.distro.Easy ≥ 9) →
      (findBestMatch dims signals distros).matchScore =
        (findBestLoop dims signals distros).1.matchScore * 0.85 * 0.90) ∧
    (signals.ExperienceLevel = ExperienceLevel.senior →
      (dims.DevScore ≥ 8 ∧ (findBestLoop dims signals distros).1.distro.DevFocus ≤ 7) →
      ¬(dims.DIYScore ≥ 8 ∧ (findBestLoop dims signals distros).1.distro.Easy ≥ 9) →
      (findBestMatch dims signals distros).matchScore =
        (findBestLoop dims signals distros).1.matchScore * 0.85) ∧
    (signals.ExperienceLevel = ExperienceLevel.senior →
      ¬(dims.DevScore ≥ 8 ∧ (findBestLoop dims signals distros).1.distro.DevFocus ≤ 7) →
      (dims.DIYScore ≥ 8 ∧ (findBestLoop dims signals distros).1.distro.Easy ≥ 9) →
      (findBestMatch dims signals distros).matchScore =
        (findBestLoop dims signals distros).1.matchScore * 0.90) ∧
    (¬signals.ExperienceLevel = ExperienceLevel.senior →
      findBestMatch dims signals distros = (findBestLoop dims signals distros).1) := by
  refine ⟨fun h1 h2 h3 => ?_, fun h1 h2 h3 => ?_, fun h1 h2 h3 => ?_, fun h1 => ?_⟩
  · unfold findBestMatch
    rw [if_pos h1, if_pos h2]
    dsimp only
    rw [if_pos h3]
  · unfold findBestMatch
    rw [if_pos h1, if_pos h2]
    dsimp only
    rw [if_neg h3]
  · unfold findBestMatch
    rw [if_pos h1, if_neg h2]
    rw [if_pos h3]
  · unfold findBestMatch
    rw [if_neg h1]

/-- C7 witness: a senior profile with user vector (5, 9, 3, 8) against a single
popular stable item with devFocus 7 and easy 10 triggers both penalties, so the
final match quality is the loop composite times 0.85 times 0.90. -/
theorem senior_penalties_multiplicative_witness :
    (findBestMatch seniorDiyDevDims emptySeniorSignals [easyGenericDistro]).matchScore =
      (findBestLoop seniorDiyDevDims emptySeniorSignals
        [easyGenericDistro]).1.matchScore * 0.85 * 0.90 :=
  (senior_penalties_multiplicative seniorDiyDevDims emptySeniorSignals
      [easyGenericDistro]).1 rfl
    (by rw [easyGeneric_loop]; exact ⟨by decide, by decide⟩)
    (by rw [easyGeneric_loop]; exact ⟨by decide, by decide⟩)

/-- C9: the selection loop compares composites with a strict greater-than against
a best-so-far initialised to 0, so when every eligible candidate's composite is 0
(in particular when the eligible set is empty) the engine returns the zero-valued
match: empty best distro id and name and confidence 0, even when eligible catalog
items exist. -/
theorem zero_composite_yields_zero_valued_match (signals : Signals) (distros : List Distro)
    (hz : ∀ d ∈ distros,
      ¬(signals.ExperienceLevel = ExperienceLevel.senior ∧ d.Popularity < 500) →
        candidateScore (calculateDimensions signals) d = 0) :
    (Score distros signals).BestDistroID = "" ∧
      (Score distros signals).BestDistroName = "" ∧
      (Score distros signals).Result.Confidence = 0 := by
  have hloop := findBestLoop_zero (calculateDimensions signals) signals distros hz
  have hdistro : (findBestMatch (calculateDimensions signals) signals distros).distro =
      defaultDistro := by
    unfold findBestMatch
    rw [hloop]
    dsimp only
    split_ifs <;> rfl
  have hms : (findBestMatch (calculateDimensions signals) signals distros).matchScore = 0 := by
    unfold findBestMatch
    rw [hloop]
    dsimp only
    split_ifs <;> dsimp only [defaultMatchResult] <;> norm_num
  refine ⟨?_, ?_, ?_⟩
  · simp only [Score]
    rw [hdistro]
    rfl
  · simp only [Score]
    rw [hdistro]
    rfl
  · simp only [Score]
    rw [hms]

/-- C9 witness: a mid profile against a catalog holding one eligible item that is
20 distance units away with popularity 0 (composite exactly 0) yields the
zero-valued match even though the eligible set is non-empty. -/
theorem zero_composite_yields_zero_valued_match_witness :
    (Score [farZeroPopDistro] emptyMidSignals).BestDistroID = "" ∧
      (Score [farZeroPopDistro] emptyMidSignals).BestDistroName = "" ∧
      (Score [farZeroPopDistro] emptyMidSignals).Result.Confidence = 0 :=
  zero_composite_yields_zero_valued_match emptyMidSignals [farZeroPopDistro]
    (by
      intro d hd hne
      have hdd : d = farZeroPopDistro := by simpa using hd
      subst hdd
      have hdims : calculateDimensions emptyMidSignals = ⟨5, 5, 3, 5⟩ := by decide
      rw [hdims]
      exact farZeroPop_candidateScore)

/-- C10: every per-candidate composite lies in [0, 1.08], the winner's match
quality (and hence the stored confidence) lies in [0, 1.08], and the base score
before the final clamp is at most 108. -/
theorem match_quality_bounded_by_108 (dims : UserDimensions) (signals : Signals)
    (distros : List Distro) (d : Distro) :
    (0 ≤ candidateScore dims d ∧ candidateScore dims d ≤ 1.08) ∧
      (0 ≤ (findBestMatch dims signals distros).matchScore ∧
        (findBestMatch dims signals distros).matchScore ≤ 1.08) ∧
      (0 ≤ (Score distros signals).Result.Confidence ∧
        (Score distros signals).Result.Confidence ≤ 1.08) ∧
      roundToInt ((findBestMatch dims signals distros).matchScore * 100) ≤ 108 := by
  obtain ⟨hm0, hm1⟩ := findBestMatch_bounds dims signals distros
  refine ⟨candidateScore_bounds dims d, ⟨hm0, hm1⟩, ?_, roundToInt_le_108 hm0 hm1⟩
  have h := findBestMatch_bounds (calculateDimensions signals) signals distros
  simp only [Score]
  exact h

/-- C5: the categorizer is a total pure threshold map on the integer score:
scores at least 75 map to strong, scores in [50, 75) map to potential, and all
lower scores map to none. -/
theorem determineCategory_threshold_map (s : ℤ) :
    (75 ≤ s → determineCategory s = FitCategory.FitStrong) ∧
      (50 ≤ s ∧ s < 75 → determineCategory s = FitCategory.FitPotential) ∧
      (s < 50 → determineCategory s = FitCategory.FitNone) := by
  refine ⟨fun h => ?_, fun h => ?_, fun h => ?_⟩ <;>
    simp only [determineCategory] <;> split_ifs <;> first | rfl | omega

/-- C5 witness: the boundary scores 75, 74, 50 and 49 land in strong, potential,
potential and none respectively. -/
theorem determineCategory_threshold_map_witness :
    determineCategory 75 = FitCategory.FitStrong ∧
      determineCategory 74 = FitCategory.FitPotential ∧
      determineCategory 50 = FitCategory.FitPotential ∧
      determineCategory 49 = FitCategory.FitNone :=
  ⟨(determineCategory_threshold_map 75).1 (by norm_num),
   (determineCategory_threshold_map 74).2.1 (by norm_num),
   (determineCategory_threshold_map 50).2.1 (by norm_num),
   (determineCategory_threshold_map 49).2.2 (by norm_num)⟩

/-- C8: a Signals value with empty topics, keywords and tech stack and
experience level mid yields exactly the baseline vector (5, 5, 3, 5),
for any sentiment. -/
theorem empty_signals_baseline_vector (sent : Sentiment) :
    calculateDimensions ⟨[], sent, ExperienceLevel.mid, [], []⟩ =
      ⟨5, 5, 3, 5⟩ := by
  cases sent <;> decide

end DistroAnalyzer
